import Mathlib

/-!
Verification of the BLE camera-remote control script
(`ble_app/python-test/main.py`).

The script drives a Canon camera over BLE: it connects, performs a
vendor handshake on the pairing characteristic, runs a timed
focus / shutter / release write sequence on the shutter characteristic,
optionally enables status indications, and disconnects.

Shallow embedding: each `async` function of the script becomes a Lean
function that, given a transport-failure oracle `W` and the index of the
next fallible transport call, returns the call's outcome
(`Except Err Unit`, an exception that propagates models a raised
`BleakError`), the list of transport events the run attempted (in
order), and the next oracle index.  `asyncio.sleep` becomes a
`Event.sleep` entry in the trace; the `async with BleakClient(...)`
scope becomes an explicit connect step whose successful acquisition
appends a final `Event.disconnect` on every exit path of the body,
matching Python context-manager semantics (`__aexit__` runs both on
normal return and on a propagating exception; a failed `__aenter__`
runs no `__aexit__`).
-/

/-- Module-level constants of the script. -/
def CAMERA_ADDR : String := "DC:FE:23:4A:E0:36"

def PAIRING_HANDLE : String := "00050002-0000-1000-0000-d8492fffa821"

def SHUTTER_HANDLE : String := "00050003-0000-1000-0000-d8492fffa821"

def STATUS_CHAR_HANDLE : String := "00050004-0000-1000-0000-d8492fffa821"

def STATUS_CCCD_HANDLE : String := "00050005-0000-1000-0000-d8492fffa821"

/-- `BUTTON_RELEASE = 0x80`: sets the "Shutter" bit. -/
def BUTTON_RELEASE : Nat := 0x80

/-- `IMMEDIATE = 0x0C`: sets the "Focus" bit. -/
def IMMEDIATE : Nat := 0x0C

/-- `DEVICE_NAME = "LINUX"`: name sent during handshake. -/
def DEVICE_NAME : String := "LINUX"

/-- One observable transport/timing event of a run.  `write h p ack`
records an attempted `write_gatt_char(h, p, response=ack)` (attempted:
the event is recorded even when the oracle makes the call fail, since
the call reached the transport).  `connected`/`connectFailed` record the
outcome of entering the `BleakClient` scope; `read h` records a
`read_gatt_char` (never emitted on the claims' paths); `subscribe h`
records `start_notify`; `sleep ms` an `asyncio.sleep`;
`disconnect` the context-manager exit. -/
inductive Event where
  | connected (addr : String)
  | connectFailed (addr : String)
  | write (h : String) (payload : List Nat) (ack : Bool)
  | read (h : String)
  | subscribe (h : String)
  | sleep (ms : Nat)
  | disconnect
deriving DecidableEq

/-- Errors a transport call can raise (a raised `BleakError`, tagged
with the operation that raised it). -/
inductive Err where
  | connectError
  | writeError (h : String)
  | subscribeError (h : String)
deriving DecidableEq

/-- The environment: `fail k` says whether the `k`-th fallible
transport call of the run raises, and `connected` is what
`client.is_connected` reports right after the scope is entered. -/
structure W where
  fail : Nat → Bool
  connected : Bool

/-- Outcome of running a piece of the script: the returned value or the
propagating exception, the trace of attempted events, and the index of
the next fallible transport call. -/
structure Res (α : Type) where
  result : Except Err α
  trace : List Event
  next : Nat

/-- `client.write_gatt_char(h, payload, response=ack)`. -/
def write_gatt_char (w : W) (k : Nat) (h : String) (payload : List Nat)
    (ack : Bool) : Res Unit :=
  ⟨if w.fail k then .error (.writeError h) else .ok (),
    [.write h payload ack], k + 1⟩

/-- `client.start_notify(h, status_handler)`. -/
def start_notify (w : W) (k : Nat) (h : String) : Res Unit :=
  ⟨if w.fail k then .error (.subscribeError h) else .ok (),
    [.subscribe h], k + 1⟩

/-- Entering `async with BleakClient(CAMERA_ADDR)`: a failed
`__aenter__` raises and opens no connection. -/
def client_connect (w : W) (k : Nat) : Res Unit :=
  if w.fail k then ⟨.error .connectError, [.connectFailed CAMERA_ADDR], k + 1⟩
  else ⟨.ok (), [.connected CAMERA_ADDR], k + 1⟩

/-- The handshake payload: `bytearray([0x03]) + bytearray(map(ord, DEVICE_NAME))`. -/
def handshakePayload : List Nat := 0x03 :: DEVICE_NAME.data.map Char.toNat

/-- `handshake(client)`: one acknowledged write of the handshake
payload to the pairing characteristic. -/
def handshake (w : W) (k : Nat) : Res Unit :=
  write_gatt_char w k PAIRING_HANDLE handshakePayload true

/-- `enable_indications(client)`: acknowledged CCCD write, then
`start_notify`, then `asyncio.sleep(0.5)`. -/
def enable_indications (w : W) (k : Nat) : Res Unit :=
  let r1 := write_gatt_char w k STATUS_CCCD_HANDLE [0x02, 0x00] true
  match r1.result with
  | .error e => ⟨.error e, r1.trace, r1.next⟩
  | .ok _ =>
    let r2 := start_notify w r1.next STATUS_CHAR_HANDLE
    match r2.result with
    | .error e => ⟨.error e, r1.trace ++ r2.trace, r2.next⟩
    | .ok _ => ⟨.ok (), r1.trace ++ r2.trace ++ [.sleep 500], r2.next⟩

/-- `trigger_shutter(client)`: unacknowledged write of `[IMMEDIATE]`,
`asyncio.sleep(0.3)`, unacknowledged write of
`[BUTTON_RELEASE | IMMEDIATE]`, unacknowledged write of `[0x00]`.
A raised write aborts the remainder of the sequence (the script has no
try/finally). -/
def trigger_shutter (w : W) (k : Nat) : Res Unit :=
  let r1 := write_gatt_char w k SHUTTER_HANDLE [IMMEDIATE] false
  match r1.result with
  | .error e => ⟨.error e, r1.trace, r1.next⟩
  | .ok _ =>
    let r2 := write_gatt_char w r1.next SHUTTER_HANDLE
      [BUTTON_RELEASE ||| IMMEDIATE] false
    match r2.result with
    | .error e => ⟨.error e, r1.trace ++ [.sleep 300] ++ r2.trace, r2.next⟩
    | .ok _ =>
      let r3 := write_gatt_char w r2.next SHUTTER_HANDLE [0x00] false
      ⟨r3.result, r1.trace ++ [.sleep 300] ++ r2.trace ++ r3.trace, r3.next⟩

/-- The body of `take_photo`'s `async with` scope: early return if
`client.is_connected` is false, otherwise `handshake` then
`trigger_shutter` (the `read_device_info` and `enable_indications`
calls are commented out in the script). -/
def session_body (w : W) (k : Nat) : Res Unit :=
  if w.connected = false then ⟨.ok (), [], k⟩
  else
    let rh := handshake w k
    match rh.result with
    | .error e => ⟨.error e, rh.trace, rh.next⟩
    | .ok _ =>
      let rs := trigger_shutter w rh.next
      ⟨rs.result, rh.trace ++ rs.trace, rs.next⟩

/-- `take_photo()`: the `async with BleakClient(CAMERA_ADDR)` scope.
Once `__aenter__` succeeds, `__aexit__` (disconnect) runs exactly once
on every exit path of the body, and only then does a body exception
propagate. -/
def take_photo (w : W) (k : Nat) : Res Unit :=
  let rc := client_connect w k
  match rc.result with
  | .error e => ⟨.error e, rc.trace, rc.next⟩
  | .ok _ =>
    let rb := session_body w rc.next
    ⟨rb.result, rc.trace ++ rb.trace ++ [.disconnect], rb.next⟩

/-- `main()`: reads inputs in a loop; `"q"` (after `strip().lower()`)
breaks, anything else runs one `take_photo()` to completion before the
next input is read; an exception from `take_photo` propagates and ends
the loop.  Modelled over an explicit list of raw input lines. -/
def main_loop (w : W) (k : Nat) : List String → Res Unit
  | [] => ⟨.ok (), [], k⟩
  | s :: rest =>
    if s.trim.toLower = "q" then ⟨.ok (), [], k⟩
    else
      let r := take_photo w k
      match r.result with
      | .error e => ⟨.error e, r.trace, r.next⟩
      | .ok _ =>
        let r2 := main_loop w r.next rest
        ⟨r2.result, r.trace ++ r2.trace, r2.next⟩

/-- `bytes_to_str(data)`: `"".join(map(chr, data)) if data else "N/A"`
(a bytearray is falsy exactly when it is empty; `chr` maps a byte to
the character with that code point). -/
def bytes_to_str (data : List Nat) : String :=
  if data = [] then "N/A" else String.mk (data.map Char.ofNat)

/-- The two lowercase hex characters Python's `bytes.hex()` produces
for one byte. -/
def byteHexChars (b : Nat) : List Char :=
  [Nat.digitChar (b / 16 % 16), Nat.digitChar (b % 16)]

/-- `data.hex()`: every byte as exactly two lowercase hex characters,
in order. -/
def bytesHexChars (data : List Nat) : List Char :=
  (data.map byteHexChars).flatten

def bytesHex (data : List Nat) : String :=
  String.mk (bytesHexChars data)

/-- Python's `format(n, "x")`: lowercase hex, no leading zeros. -/
def natHex (n : Nat) : String :=
  String.mk (Nat.toDigits 16 n)

/-- `status_handler(sender, data)` builds the line
`f"{timestamp()}  [NOTIFY] sender=0x{sender.handle:x}  payload={data.hex()}"`.
The wall-clock timestamp (an ISO string with `timespec="milliseconds"`)
is environmental and passed in as `now`. -/
def status_handler (now : String) (senderHandle : Nat) (data : List Nat) :
    String :=
  now ++ "  [NOTIFY] sender=0x" ++ natHex senderHandle ++ "  payload="
    ++ bytesHex data

/-- Inverse of `bytesHexChars`: decode a hex digit. -/
def hexDigitVal (c : Char) : Option Nat :=
  if 48 ≤ c.toNat ∧ c.toNat ≤ 57 then some (c.toNat - 48)
  else if 97 ≤ c.toNat ∧ c.toNat ≤ 102 then some (c.toNat - 87)
  else none

/-- Inverse of `bytesHexChars`: decode a lowercase-hex rendering back
into its byte list.  Fails on odd length or a non-hex character. -/
def hexToBytes : List Char → Option (List Nat)
  | [] => some []
  | [_] => none
  | c1 :: c2 :: rest =>
    match hexDigitVal c1, hexDigitVal c2, hexToBytes rest with
    | some d1, some d2, some bs => some ((16 * d1 + d2) :: bs)
    | _, _, _ => none

/-- Net number of open connections contributed by one event. -/
def connDelta : Event → Int
  | .connected _ => 1
  | .disconnect => -1
  | _ => 0

/-- Net number of open connections after a trace. -/
def openConns : List Event → Int
  | [] => 0
  | e :: t => connDelta e + openConns t

/-- Oracle in which every transport call succeeds and the connection
check passes. -/
def wOk : W := ⟨fun _ => false, true⟩

/-- Oracle in which every transport call fails. -/
def wAllFail : W := ⟨fun _ => true, true⟩

/-- Oracle in which exactly the second transport call (the handshake
write, in a `take_photo` run) fails. -/
def wHsFail : W := ⟨fun i => i == 1, true⟩

/-- Oracle in which every call succeeds but `client.is_connected`
reports false. -/
def wNotConn : W := ⟨fun _ => false, false⟩

/-- The full-press bitmask computes to `0x8C`. -/
theorem lor_128_12 : (128 : Nat) ||| 12 = 140 := by decide

/-- `chr` round-trip for byte values: the code point of `Char.ofNat b`
is `b` when `b < 256`. -/
theorem toNat_Char_ofNat (b : Nat) (hb : b < 256) : (Char.ofNat b).toNat = b := by
  have h : b.isValidChar := Or.inl (by omega)
  rw [Char.ofNat, dif_pos h]
  rfl

/-- Mapping bytes to characters and back is the identity. -/
theorem map_toNat_map_ofNat (data : List Nat) (hb : ∀ b ∈ data, b < 256) :
    (data.map Char.ofNat).map Char.toNat = data := by
  induction data with
  | nil => rfl
  | cons b bs ih =>
    simp only [List.map_cons]
    rw [toNat_Char_ofNat b (hb b (List.mem_cons_self b bs)),
      ih fun x hx => hb x (List.mem_cons_of_mem _ hx)]

/-- Claim C1, as stated, is false on the code: when the Focus write
raises, `trigger_shutter` aborts at once (there is no try/finally), so
the Release write `[0x00]` is never attempted. -/
theorem th_C1_cex :
    (trigger_shutter wAllFail 0).result = .error (.writeError SHUTTER_HANDLE) ∧
    Event.write SHUTTER_HANDLE [0x00] false ∉ (trigger_shutter wAllFail 0).trace := by
  constructor
  · rfl
  · simp [trigger_shutter, write_gatt_char, wAllFail, IMMEDIATE]

/-- Claim C1 (amended): the Release write `[0x00]` to the shutter
characteristic is attempted exactly when the Focus write and the
ShutterAndFocus write both succeed; a failed earlier phase aborts the
sequence before Release. -/
theorem th_C1 (w : W) (k : Nat) :
    Event.write SHUTTER_HANDLE [0x00] false ∈ (trigger_shutter w k).trace ↔
      (w.fail k = false ∧ w.fail (k + 1) = false) := by
  cases h1 : w.fail k <;> cases h2 : w.fail (k + 1) <;>
    simp [trigger_shutter, write_gatt_char, h1, h2, lor_128_12, IMMEDIATE, BUTTON_RELEASE]

/-- Claim C2: once the connect step of `take_photo` succeeds, the
trace contains exactly one disconnect event and it is the final event,
whatever the outcome of the handshake and shutter writes. -/
theorem th_C2 (w : W) (k : Nat) (hc : w.fail k = false) :
    List.count Event.disconnect (take_photo w k).trace = 1 ∧
    (take_photo w k).trace.getLast? = some Event.disconnect := by
  have hbody : ∀ w k, List.count Event.disconnect (session_body w k).trace = 0 := by
    intro w k
    cases hcon : w.connected <;>
      cases h1 : w.fail k <;> cases h2 : w.fail (k + 1) <;>
        cases h3 : w.fail (k + 2) <;>
          simp [session_body, handshake, trigger_shutter, write_gatt_char,
            hcon, h1, h2, h3, List.count_cons]
  have htr : (take_photo w k).trace =
      (Event.connected CAMERA_ADDR :: (session_body w (k + 1)).trace)
        ++ [Event.disconnect] := by
    simp [take_photo, client_connect, hc]
  constructor
  · rw [htr, List.count_append]
    simp [List.count_cons, hbody]
  · rw [htr, List.getLast?_concat]

/-- Claim C3: a fully successful run of `trigger_shutter` produces
exactly, in order: an unacknowledged write of `[0x0C]`, a 300 ms wait,
an unacknowledged write of `[0x8C]` (which is
`BUTTON_RELEASE ||| IMMEDIATE`), and immediately an unacknowledged
write of `[0x00]` — and no other writes. -/
theorem th_C3 (w : W) (k : Nat) (h1 : w.fail k = false)
    (h2 : w.fail (k + 1) = false) (h3 : w.fail (k + 2) = false) :
    (trigger_shutter w k).trace =
      [Event.write SHUTTER_HANDLE [0x0C] false,
       Event.sleep 300,
       Event.write SHUTTER_HANDLE [0x8C] false,
       Event.write SHUTTER_HANDLE [0x00] false] ∧
    (trigger_shutter w k).result = .ok () ∧
    BUTTON_RELEASE ||| IMMEDIATE = 0x8C := by
  refine ⟨?_, ?_, by decide⟩ <;>
    simp [trigger_shutter, write_gatt_char, h1, h2, h3, IMMEDIATE, BUTTON_RELEASE,
      lor_128_12]

/-- Claim C4: `handshake` issues exactly one write: an acknowledged
write to the pairing characteristic of the 6-byte payload
`0x03` followed by the ASCII bytes of `"LINUX"`; no read is performed,
and it succeeds exactly when that write is acknowledged. -/
theorem th_C4 (w : W) (k : Nat) :
    (handshake w k).trace = [Event.write PAIRING_HANDLE handshakePayload true] ∧
    handshakePayload = [0x03, 0x4C, 0x49, 0x4E, 0x55, 0x58] ∧
    handshakePayload.length = 6 ∧
    (∀ h, Event.read h ∉ (handshake w k).trace) ∧
    ((handshake w k).result = .ok () ↔ w.fail k = false) := by
  refine ⟨rfl, by decide, by decide, by simp [handshake, write_gatt_char], ?_⟩
  cases h : w.fail k <;> simp [handshake, write_gatt_char, h]

/-- Claim C5: a shutter-characteristic write can appear in a
`take_photo` trace only if the handshake write succeeded; and when the
handshake write fails (connect having succeeded with the connection
check passing), no shutter write is attempted, disconnect still runs
exactly once, and the handshake failure is the surfaced error. -/
theorem th_C5 (w : W) (k : Nat) :
    ((∃ p a, Event.write SHUTTER_HANDLE p a ∈ (take_photo w k).trace) →
      w.fail (k + 1) = false) ∧
    (w.fail k = false → w.connected = true → w.fail (k + 1) = true →
      (∀ p a, Event.write SHUTTER_HANDLE p a ∉ (take_photo w k).trace) ∧
      List.count Event.disconnect (take_photo w k).trace = 1 ∧
      (take_photo w k).result = .error (.writeError PAIRING_HANDLE)) := by
  constructor
  · rintro ⟨p, a, hp⟩
    by_contra hne
    have h2 : w.fail (k + 1) = true := by
      cases h : w.fail (k + 1) <;> simp_all
    cases hc : w.fail k <;>
      cases hcon : w.connected <;>
        simp [take_photo, client_connect, session_body, handshake,
          write_gatt_char, hc, hcon, h2, PAIRING_HANDLE, SHUTTER_HANDLE] at hp
  · intro hc hcon h2
    refine ⟨?_, ?_, ?_⟩ <;>
      simp [take_photo, client_connect, session_body, handshake,
        write_gatt_char, hc, hcon, h2, List.count_cons, PAIRING_HANDLE,
        SHUTTER_HANDLE]

/-- Claim C6: a fully successful `enable_indications` produces exactly,
in order: an acknowledged write of `[0x02, 0x00]` to the status CCCD,
a subscription on the status characteristic, and a 500 ms wait before
returning. -/
theorem th_C6 (w : W) (k : Nat) (h1 : w.fail k = false)
    (h2 : w.fail (k + 1) = false) :
    (enable_indications w k).trace =
      [Event.write STATUS_CCCD_HANDLE [0x02, 0x00] true,
       Event.subscribe STATUS_CHAR_HANDLE,
       Event.sleep 500] ∧
    (enable_indications w k).result = .ok () := by
  constructor <;>
    simp [enable_indications, write_gatt_char, start_notify, h1, h2]

/-- Claim C9: `bytes_to_str` maps the empty byte sequence to `"N/A"`
and a non-empty byte sequence to one character per byte, each character
carrying exactly that byte's code point. -/
theorem th_C9 :
    bytes_to_str [] = "N/A" ∧
    ∀ data : List Nat, data ≠ [] → (∀ b ∈ data, b < 256) →
      (bytes_to_str data).length = data.length ∧
      (bytes_to_str data).data.map Char.toNat = data := by
  refine ⟨rfl, fun data hne hb => ⟨?_, ?_⟩⟩
  · rw [bytes_to_str, if_neg hne]
    simp
  · rw [bytes_to_str, if_neg hne]
    exact map_toNat_map_ofNat data hb

/-- Claim C10: when the connection check reports not-connected right
after the scope is entered, `take_photo` performs no characteristic
operation at all — the trace is just the connect and the
context-manager disconnect — and returns normally. -/
theorem th_C10 (w : W) (k : Nat) (hc : w.fail k = false)
    (hcon : w.connected = false) :
    (take_photo w k).trace = [Event.connected CAMERA_ADDR, Event.disconnect] ∧
    (∀ h p a, Event.write h p a ∉ (take_photo w k).trace) ∧
    (∀ h, Event.read h ∉ (take_photo w k).trace) ∧
    (∀ h, Event.subscribe h ∉ (take_photo w k).trace) ∧
    (take_photo w k).result = .ok () := by
  refine ⟨?_, ?_, ?_, ?_, ?_⟩ <;>
    simp [take_photo, client_connect, session_body, hc, hcon]

theorem openConns_append (a b : List Event) :
    openConns (a ++ b) = openConns a + openConns b := by
  induction a with
  | nil => simp [openConns]
  | cons e t ih => simp [openConns, ih, add_assoc]

theorem append_split {α : Type} (a : List α) : ∀ b p r, p ++ r = a ++ b →
    (∃ s, p ++ s = a) ∨ (∃ q, p = a ++ q ∧ q ++ r = b) := by
  induction a with
  | nil => exact fun b p r h => Or.inr ⟨p, rfl, h⟩
  | cons x a ih =>
    intro b p r h
    cases p with
    | nil => exact Or.inl ⟨x :: a, rfl⟩
    | cons y p =>
      rw [List.cons_append, List.cons_append] at h
      injection h with h1 h2
      rcases ih b p r h2 with ⟨s, hs⟩ | ⟨q, hq1, hq2⟩
      · exact Or.inl ⟨s, by rw [List.cons_append, h1, hs]⟩
      · exact Or.inr ⟨q, by rw [h1, hq1, List.cons_append], hq2⟩

theorem openConns_eq_zero (t : List Event) (h : ∀ e ∈ t, connDelta e = 0) :
    openConns t = 0 := by
  induction t with
  | nil => rfl
  | cons e t ih =>
    simp [openConns, h e (List.mem_cons_self e t),
      ih fun x hx => h x (List.mem_cons_of_mem _ hx)]

/-- Every event of a session body is a characteristic operation or a
wait: none opens or closes a connection. -/
theorem session_body_events (w : W) (k : Nat) :
    ∀ e ∈ (session_body w k).trace, connDelta e = 0 := by
  cases hcon : w.connected <;>
    cases h1 : w.fail k <;> cases h2 : w.fail (k + 1) <;>
      cases h3 : w.fail (k + 2) <;>
        simp [session_body, handshake, trigger_shutter, write_gatt_char,
          hcon, h1, h2, h3, connDelta]

/-- A `take_photo` run opens as many connections as it closes. -/
theorem take_photo_openConns (w : W) (k : Nat) :
    openConns (take_photo w k).trace = 0 := by
  cases hc : w.fail k
  · have htr : (take_photo w k).trace =
        (Event.connected CAMERA_ADDR :: (session_body w (k + 1)).trace)
          ++ [Event.disconnect] := by
      simp [take_photo, client_connect, hc]
    rw [htr, openConns_append, openConns,
      openConns_eq_zero _ (session_body_events w (k + 1))]
    rfl
  · simp [take_photo, client_connect, hc, openConns, connDelta]

/-- At no point during a `take_photo` run is more than one connection
open. -/
theorem take_photo_prefix_bound (w : W) (k : Nat) :
    ∀ p r, p ++ r = (take_photo w k).trace → openConns p ≤ 1 := by
  intro p r h
  cases hc : w.fail k
  · have htr : (take_photo w k).trace =
        Event.connected CAMERA_ADDR ::
          ((session_body w (k + 1)).trace ++ [Event.disconnect]) := by
      simp [take_photo, client_connect, hc]
    rw [htr] at h
    cases p with
    | nil => simp [openConns]
    | cons e p2 =>
      rw [List.cons_append] at h
      injection h with h1 h2
      subst h1
      rcases append_split _ _ _ _ h2 with ⟨s, hs⟩ | ⟨q, hq1, hq2⟩
      · have hz : openConns p2 = 0 := by
          refine openConns_eq_zero _ fun x hx => ?_
          exact session_body_events w (k + 1) x (hs ▸ List.mem_append_left s hx)
        simp [openConns, connDelta, hz]
      · have hz : openConns (session_body w (k + 1)).trace = 0 :=
          openConns_eq_zero _ (session_body_events w (k + 1))
        have hqs : openConns q ≤ 0 := by
          cases q with
          | nil => simp [openConns]
          | cons x q2 =>
            rw [List.cons_append] at hq2
            injection hq2 with hx hq3
            subst hx
            obtain ⟨rfl, -⟩ := List.append_eq_nil.mp hq3
            simp [openConns, connDelta]
        subst hq1
        simp only [openConns, connDelta, openConns_append, hz]
        omega
  · have htr : (take_photo w k).trace = [Event.connectFailed CAMERA_ADDR] := by
      simp [take_photo, client_connect, hc]
    rw [htr] at h
    cases p with
    | nil => simp [openConns]
    | cons e p2 =>
      rw [List.cons_append] at h
      injection h with h1 h2
      subst h1
      obtain ⟨rfl, -⟩ := List.append_eq_nil.mp h2
      simp [openConns, connDelta]

/-- Claim C7: across a whole run of the interactive loop, at most one
transport connection is ever open at a time — each `take_photo`
session runs to completion (its disconnect included) before the next
one can start, so the loop never opens a second concurrent connection
to the peripheral. -/
theorem th_C7 (w : W) (k : Nat) (inputs : List String) :
    ∀ p r, p ++ r = (main_loop w k inputs).trace → openConns p ≤ 1 := by
  induction inputs generalizing k with
  | nil =>
    intro p r h
    simp only [main_loop] at h
    obtain ⟨rfl, -⟩ := List.append_eq_nil.mp h
    simp [openConns]
  | cons s rest ih =>
    intro p r h
    by_cases hq : s.trim.toLower = "q"
    · simp only [main_loop, hq, if_pos] at h
      obtain ⟨rfl, -⟩ := List.append_eq_nil.mp h
      simp [openConns]
    · cases hres : (take_photo w k).result with
      | error e =>
        have htr : (main_loop w k (s :: rest)).trace = (take_photo w k).trace := by
          simp [main_loop, hq, hres]
        rw [htr] at h
        exact take_photo_prefix_bound w k p r h
      | ok u =>
        have htr : (main_loop w k (s :: rest)).trace =
            (take_photo w k).trace
              ++ (main_loop w (take_photo w k).next rest).trace := by
          simp [main_loop, hq, hres]
        rw [htr] at h
        rcases append_split _ _ _ _ h with ⟨s2, hs⟩ | ⟨q, hq1, hq2⟩
        · exact take_photo_prefix_bound w k p s2 hs
        · rw [hq1, openConns_append, take_photo_openConns, zero_add]
          exact ih _ q r hq2

theorem hexDigitVal_digitChar (d : Nat) (hd : d < 16) :
    hexDigitVal (Nat.digitChar d) = some d := by
  interval_cases d <;> decide

/-- The hex rendering of a byte list decodes back to exactly the same
bytes: no truncation, no reordering, no ambiguity. -/
theorem hexToBytes_bytesHexChars (data : List Nat) (hb : ∀ b ∈ data, b < 256) :
    hexToBytes (bytesHexChars data) = some data := by
  induction data with
  | nil => rfl
  | cons b bs ih =>
    have hb0 : b < 256 := hb b (List.mem_cons_self b bs)
    have h1 : b / 16 % 16 = b / 16 := Nat.mod_eq_of_lt (by omega)
    have e1 : hexDigitVal (Nat.digitChar (b / 16 % 16)) = some (b / 16) := by
      rw [h1]
      exact hexDigitVal_digitChar _ (by omega)
    have e2 : hexDigitVal (Nat.digitChar (b % 16)) = some (b % 16) :=
      hexDigitVal_digitChar _ (Nat.mod_lt _ (by omega))
    have ih2 := ih fun x hx => hb x (List.mem_cons_of_mem _ hx)
    show hexToBytes
        (Nat.digitChar (b / 16 % 16) :: Nat.digitChar (b % 16)
          :: bytesHexChars bs) = some (b :: bs)
    rw [hexToBytes, e1, e2, ih2]
    show some ((16 * (b / 16) + b % 16) :: bs) = some (b :: bs)
    have hval : 16 * (b / 16) + b % 16 = b := by omega
    rw [hval]

/-- The hex rendering has exactly two characters per byte. -/
theorem bytesHexChars_length (data : List Nat) :
    (bytesHexChars data).length = 2 * data.length := by
  induction data with
  | nil => rfl
  | cons b bs ih =>
    show (byteHexChars b ++ bytesHexChars bs).length = 2 * (bs.length + 1)
    rw [List.length_append, ih, byteHexChars]
    simp
    omega

/-- Claim C8: the line the sink emits for a notification is the
timestamp, the source handle, and the payload rendered as hex; the hex
rendering is two characters per byte and decodes back to exactly the
payload bytes in order. -/
theorem th_C8 (now : String) (sender : Nat) (data : List Nat)
    (hb : ∀ b ∈ data, b < 256) :
    status_handler now sender data =
      now ++ "  [NOTIFY] sender=0x" ++ natHex sender ++ "  payload="
        ++ String.mk (bytesHexChars data) ∧
    hexToBytes (bytesHexChars data) = some data ∧
    (bytesHexChars data).length = 2 * data.length :=
  ⟨rfl, hexToBytes_bytesHexChars data hb, bytesHexChars_length data⟩

/-- C1's amended statement exercised concretely: on an all-success run
the Release write is present in the trace. -/
theorem th_C1_witness :
    Event.write SHUTTER_HANDLE [0x00] false ∈ (trigger_shutter wOk 0).trace :=
  (th_C1 wOk 0).mpr ⟨rfl, rfl⟩

theorem th_C2_witness :
    List.count Event.disconnect (take_photo wOk 0).trace = 1 :=
  (th_C2 wOk 0 rfl).1

theorem th_C3_witness : (trigger_shutter wOk 0).result = .ok () :=
  (th_C3 wOk 0 rfl rfl rfl).2.1

theorem th_C4_witness : handshakePayload.length = 6 :=
  (th_C4 wOk 0).2.2.1

theorem th_C5_witness :
    List.count Event.disconnect (take_photo wHsFail 0).trace = 1 ∧
    wOk.fail (0 + 1) = false :=
  ⟨((th_C5 wHsFail 0).2 rfl rfl rfl).2.1,
   (th_C5 wOk 0).1 ⟨[0x0C], false, by decide⟩⟩

theorem th_C6_witness : (enable_indications wOk 0).result = .ok () :=
  (th_C6 wOk 0 rfl rfl).2

theorem th_C7_witness : openConns (main_loop wOk 0 [""]).trace ≤ 1 :=
  th_C7 wOk 0 [""] (main_loop wOk 0 [""]).trace [] (List.append_nil _)

theorem th_C8_witness : hexToBytes (bytesHexChars [0xAA, 0xBB]) = some [0xAA, 0xBB] :=
  (th_C8 "2025-10-12T12:00:00.000" 27 [0xAA, 0xBB] (by decide)).2.1

theorem th_C9_witness : (bytes_to_str [72, 105]).length = 2 :=
  (th_C9.2 [72, 105] (by decide) (by decide)).1

theorem th_C10_witness : (take_photo wNotConn 0).result = .ok () :=
  (th_C10 wNotConn 0 rfl rfl).2.2.2.2
